import Mathlib

/-!
# Verification of the RERA project-list scraper (`src/scraper.py`)

This file is a shallow embedding of the scraper's control logic:

* the native-dialog handler `handle_dialog` (scraper.py lines 13-34);
* the per-field polling loops of the detail-page extractor
  (lines 181-296), modelled over an abstract stream of DOM states
  indexed by poll cycle (one cycle = one 0.5 s sleep);
* the orchestration loop of `main` (lines 94-316), modelled as a step
  function on an explicit run state driven by an abstract environment
  supplying enumeration results and per-attempt outcomes;
* the CSV output step (lines 321-330).

Python strings are modelled as Lean `String`; Python's `str.strip()` is
`pyStrip` and `str.lower()` is `pyLower` (faithful on the
ASCII data these claims involve).  Python truthiness of a string is
`≠ ""`.  Wall-clock time is idealised: after `n` sleeps of a polling
loop, `time.time() - start_time` is `0.5 * n`.
-/

namespace Scraper

/-- Embedding of Python's `str.strip()`: drop whitespace characters from
both ends (whitespace per `Char.isWhitespace`, which covers the space,
tab, carriage-return and newline characters occurring in this data).
Defined over the character list so that it is kernel-computable. -/
def pyStrip (s : String) : String :=
  String.mk
    (((s.data.dropWhile Char.isWhitespace).reverse.dropWhile
      Char.isWhitespace).reverse)

/-- Embedding of Python's `str.lower()`: character-wise lower-casing
(faithful on the ASCII data involved here). -/
def pyLower (s : String) : String :=
  String.mk (s.data.map Char.toLower)

/-! ## Dialog handler (scraper.py lines 13-34) -/

inductive DialogAction where
  | accept
  | dismiss
deriving DecidableEq, Repr

/-- Embedding of `"location" in dialog.message.lower()` (line 25):
Python's contiguous-substring test, on the lower-cased message. -/
def mentionsLocation (message : String) : Bool :=
  decide ("location".toList <:+: (pyLower message).toList)

/-- Embedding of `handle_dialog` (lines 13-34): alert/confirm/prompt and
beforeunload dialogs are accepted unconditionally; any other dialog type
is accepted iff its message mentions "location" (case-insensitively) and
dismissed otherwise.  (Logging is ignored.) -/
def handle_dialog (dtype message : String) : DialogAction :=
  if dtype = "alert" ∨ dtype = "confirm" ∨ dtype = "prompt" then
    .accept
  else if dtype = "beforeunload" then
    .accept
  else if mentionsLocation message then
    .accept
  else
    .dismiss

/-! ## Simple-field polling (Project Name, lines 184-189; RERA Regd.
No., lines 194-199)

```
start_time = time.time()
while await loc.text_content() == '--' and (time.time() - start_time) < 60:
    await asyncio.sleep(0.5)
text = await loc.text_content()
```

`dom k` is the text the locator shows at poll cycle `k` (i.e. after `k`
sleeps).  The guard `(time.time() - start_time) < 60` holds at cycle `n`
iff `0.5 * n < 60`, i.e. `n < 120`; `fuel` counts the cycles still below
the ceiling, so the top-level call uses `fuel = 120`.  The result pairs
the returned text with the number of sleep cycles performed. -/

def pollSimple (dom : Nat → String) : Nat → Nat → String × Nat
  | 0, n => (dom n, n)
  | fuel + 1, n =>
    if dom n = "--" then pollSimple dom fuel (n + 1) else (dom n, n)

/-- Resolution of a simple field: poll from cycle 0 under the 60-second
(= 120 half-second cycles) ceiling. -/
def resolveSimpleField (dom : Nat → String) : String × Nat :=
  pollSimple dom 120 0

/-! ## Priority-source polling for Promoter Name (lines 229-253)

```
promoter_name_text = None
start_time = time.time()
while True:
    if await company_name_locator.count() > 0:
        text = await company_name_locator.first.text_content()
        if text and text.strip() != '--':
            promoter_name_text = text; break
    if await propietory_name_locator.count() > 0:
        text = await propietory_name_locator.first.text_content()
        if text and text.strip() != '--':
            promoter_name_text = text; break
    if (await company_name_locator.count() == 0 and await propietory_name_locator.count() == 0):
        promoter_name_text = '--'; break
    if time.time() - start_time > 40:
        if promoter_name_text is None: promoter_name_text = '--'
        break
    await asyncio.sleep(0.5)
```

A cycle's DOM state gives, for each candidate source, `none` when the
locator matches no element (`count() == 0`) and `some t` when the first
matched element's text is `t`.  The time check `> 40` fires at cycle `n`
iff `0.5 * n > 40`, i.e. `n ≥ 81`, so the top-level call uses
`fuel = 81`.  (The Address loop at lines 256-278 has exactly the same
shape with its own two sources.) -/

structure PromoterDom where
  company : Option String
  propietory : Option String
deriving DecidableEq, Repr

/-- Embedding of `text and text.strip() != '--'`: the text is truthy and
its stripped form is not the placeholder. -/
def acceptNonPlaceholder (t : String) : Bool :=
  t ≠ "" && pyStrip t ≠ "--"

/-- Decision taken by one iteration of the Promoter Name loop body
before the time check, in source order: company source first, then
propietory source, then the both-absent early exit.  `none` means the
iteration reaches the time check / sleep. -/
def cycleDecision (d : PromoterDom) : Option String :=
  match d.company, d.propietory with
  | some t, some u =>
    if acceptNonPlaceholder t then some t
    else if acceptNonPlaceholder u then some u
    else none
  | some t, none =>
    if acceptNonPlaceholder t then some t else none
  | none, some u =>
    if acceptNonPlaceholder u then some u else none
  | none, none => some "--"

def pollPriority (dom : Nat → PromoterDom) : Nat → Nat → String × Nat
  | 0, n =>
    (match cycleDecision (dom n) with
     | some v => (v, n)
     | none => ("--", n))
  | fuel + 1, n =>
    match cycleDecision (dom n) with
    | some v => (v, n)
    | none => pollPriority dom fuel (n + 1)

/-- Resolution of the Promoter Name field: poll from cycle 0 under the
40-second (= 81 half-second cycles until `> 40`) ceiling. -/
def resolvePromoterName (dom : Nat → PromoterDom) : String × Nat :=
  pollPriority dom 81 0

/-! ## GST No. polling (lines 282-296)

```
gst_no_text = '--'
start_time = time.time()
while True:
    if await gst_no_locator.count() > 0:
        text = await gst_no_locator.first.text_content()
        if text and text.strip() != '':
            gst_no_text = text; break
    if time.time() - start_time > 40:
        break
    await asyncio.sleep(0.5)
```

`dom k = none` when the GST locator matches no element at cycle `k`,
`some t` when the first match's text is `t`.  Same 81-cycle ceiling as
the Promoter Name loop. -/

/-- Embedding of `text and text.strip() != ''`: truthy and non-blank
after stripping (the placeholder `"--"` passes this test). -/
def acceptNonBlank (t : String) : Bool :=
  t ≠ "" && pyStrip t ≠ ""

def pollGst (dom : Nat → Option String) : Nat → Nat → String × Nat
  | 0, n =>
    (match dom n with
     | some t => if acceptNonBlank t then (t, n) else ("--", n)
     | none => ("--", n))
  | fuel + 1, n =>
    match dom n with
    | some t =>
      if acceptNonBlank t then (t, n) else pollGst dom fuel (n + 1)
    | none => pollGst dom fuel (n + 1)

/-- Resolution of the GST No. field: poll from cycle 0 under the
40-second (= 81 half-second cycles until `> 40`) ceiling, defaulting to
`"--"`. -/
def resolveGst (dom : Nat → Option String) : String × Nat :=
  pollGst dom 81 0

/-! ## Records and validation (lines 178-307) -/

/-- The per-project dictionary `current_project_details`.  Its keys are
inserted in this order: "Project Name" (line 189), "Rera Regd. No"
(line 199), "Promoter Name" (line 253), "Address of the Promoter"
(line 280), "GST No." (line 296); the assignments at lines 304-305
overwrite existing keys and do not change the order. -/
structure ExtractedRecord where
  projectName : String
  reraRegdNo : String
  promoterName : String
  addressOfPromoter : String
  gstNo : String
deriving DecidableEq, Repr

/-- Embedding of lines 298-307:

```
promoter_name = promoter_name_text.strip() if promoter_name_text else "--"
address = address_text.strip() if address_text else "--"
if not promoter_name or not address:
    # skip (log a warning, do not append)
else:
    current_project_details["Promoter Name"] = promoter_name
    current_project_details["Address of the Promoter"] = address
    project_data.append(current_project_details)
```

`none` means the record is skipped; `some r'` is the record as appended
(with the stripped promoter name and address written back).
`promoterOf` and `addressOf` are the local variables `promoter_name` and
`address` of lines 298-299. -/
def promoterOf (r : ExtractedRecord) : String :=
  if r.promoterName = "" then "--" else pyStrip r.promoterName

def addressOf (r : ExtractedRecord) : String :=
  if r.addressOfPromoter = "" then "--" else pyStrip r.addressOfPromoter

def validateRecord (r : ExtractedRecord) : Option ExtractedRecord :=
  if promoterOf r = "" ∨ addressOf r = "" then none
  else some { r with promoterName := promoterOf r,
                     addressOfPromoter := addressOf r }

/-! ## Orchestration loop (lines 94-316) -/

/-- Outcome of one processing attempt for the candidate at the cursor,
abstracting the card scan at lines 143-311:
* `navFailed` — a card matched and its "View Details" click raised a
  navigation error (lines 158-162);
* `notFound` — no card matched the candidate name (lines 313-314);
* `extracted r` — navigation succeeded and the field extractor produced
  the raw field texts collected in `r` (lines 177-296). -/
inductive Outcome where
  | navFailed
  | notFound
  | extracted (r : ExtractedRecord)
deriving DecidableEq, Repr

/-- The orchestrator's run state: the discovered candidate names
(`project_names`), the cursor (`project_names_index`) and the
accumulated records (`project_data`). -/
structure RunState where
  names : List String
  idx : Nat
  data : List ExtractedRecord
deriving DecidableEq, Repr

/-- Effect of one processing attempt on the run state.
* `navFailed`: `project_names_index += 1` at line 160, then `break` out
  of the card scan; the unconditional `project_names_index += 1` at
  line 316 runs as well, so the cursor advances by two.
* `notFound`: only line 316 runs — cursor advances by one.
* `extracted r`: the validation at lines 298-307 either skips or appends
  the record, then line 316 advances the cursor by one. -/
def processAttempt (o : Outcome) (s : RunState) : RunState :=
  match o with
  | .navFailed => { s with idx := s.idx + 2 }
  | .notFound => { s with idx := s.idx + 1 }
  | .extracted r =>
    match validateRecord r with
    | none => { s with idx := s.idx + 1 }
    | some r' => { s with data := s.data ++ [r'], idx := s.idx + 1 }

/-- Name filtering shared by both enumerations (lines 84-89 and
104-111): take each card's first `h5` text (`none` when the card has no
`h5`), strip it, and keep it when non-empty and not "filter"
(case-insensitively). -/
def enumAll : List (Option String) → List String
  | [] => []
  | none :: rest => enumAll rest
  | some t :: rest =>
    let name := pyStrip t
    if name ≠ "" ∧ pyLower name ≠ "filter" then name :: enumAll rest
    else enumAll rest

/-- Initial enumeration (lines 81-91): same filtering, but the scan
breaks as soon as six names are collected (`if len(project_names) == 6:
break`, checked after each card whether or not it was appended). -/
def collectTop : List (Option String) → List String → List String
  | [], acc => acc
  | none :: rest, acc => collectTop rest acc
  | some t :: rest, acc =>
    let name := pyStrip t
    let acc' := if name ≠ "" ∧ pyLower name ≠ "filter" then acc ++ [name]
                else acc
    if acc'.length = 6 then acc' else collectTop rest acc'

/-- The abstract world driving iteration `n` of the `while` loop:
`enumCards n` is the list of cards the re-enumeration at lines 103-111
would see, and `attempt n` is the outcome of the processing attempt
(`none` models an automation exception thrown mid-attempt, which
propagates to the handler at lines 344-347 and aborts the run). -/
structure Env where
  enumCards : Nat → List (Option String)
  attempt : Nat → Option Outcome

/-- Status of the `while len(project_data) < 6` loop: still `running`,
`finished` normally (guard false, or the exhaustion `break` at
line 115), or `crashed` (an exception escaped to lines 344-347; in
particular the `IndexError` that line 121 raises when the cursor is out
of range after an extension). -/
inductive LoopRes where
  | running (s : RunState)
  | finished (s : RunState)
  | crashed (s : RunState)
deriving DecidableEq, Repr

def LoopRes.state : LoopRes → RunState
  | .running s => s
  | .finished s => s
  | .crashed s => s

/-- Extension step (lines 97-118): when the cursor has outrun the known
names, re-enumerate (`project_names_new`, modelled by
`enumAll (e.enumCards n)`); if that yields no entries beyond the cursor
index, `break` (modelled as `none`, lines 113-115); otherwise extend
with `project_names_new[project_names_index:]` (line 117).  When the
cursor is still in range, the state passes through unchanged. -/
def extendNames (e : Env) (n : Nat) (s : RunState) : Option RunState :=
  if s.names.length ≤ s.idx then
    if (enumAll (e.enumCards n)).length ≤ s.idx then none
    else some { s with
                names := s.names ++ (enumAll (e.enumCards n)).drop s.idx }
  else some s

/-- One iteration of the orchestration loop (lines 96-316):
check the guard `len(project_data) < 6`; run the extension step; then
read `project_names[project_names_index]` (line 121, `IndexError` when
out of range) and run one processing attempt. -/
def loopIter (e : Env) (n : Nat) : LoopRes → LoopRes
  | .finished s => .finished s
  | .crashed s => .crashed s
  | .running s =>
    if 6 ≤ s.data.length then .finished s
    else
      match extendNames e n s with
      | none => .finished s
      | some s' =>
        match s'.names[s'.idx]? with
        | none => .crashed s'
        | some _ =>
          match e.attempt n with
          | none => .crashed s'
          | some o => .running (processAttempt o s')

/-- State of the run after `n` loop iterations, starting from `r`. -/
def trace (e : Env) (r : LoopRes) : Nat → LoopRes
  | 0 => r
  | n + 1 => loopIter e n (trace e r n)

/-- The run state as `main` enters the orchestration loop: the initial
top-6 enumeration (lines 81-92), cursor 0, no data (lines 94-95). -/
def initState (cards : List (Option String)) : RunState :=
  { names := collectTop cards [], idx := 0, data := [] }

/-! ## CSV output (lines 321-330)

```
csv_file = "projects_output.csv"
if project_data:
    with open(csv_file, ...) as f:
        writer = csv.DictWriter(f, fieldnames=list(project_data[0].keys()))
        writer.writeheader()
        writer.writerows(project_data)
else:
    logging.info("No data to write to CSV.")
```
-/

/-- `list(project_data[0].keys())`: the keys of a
`current_project_details` dictionary in insertion order (see
`ExtractedRecord`). -/
def recordFieldnames : List String :=
  ["Project Name", "Rera Regd. No", "Promoter Name",
   "Address of the Promoter", "GST No."]

/-- The row `csv.DictWriter` emits for one record: the values in
fieldname order. -/
def recordRow (r : ExtractedRecord) : List String :=
  [r.projectName, r.reraRegdNo, r.promoterName, r.addressOfPromoter,
   r.gstNo]

structure CsvFile where
  header : List String
  rows : List (List String)
deriving DecidableEq, Repr

/-- The run-end CSV step: `none` when `project_data` is empty (the run
logs "No data to write to CSV." instead of writing), otherwise the file
with the header row and one row per accumulated record, in order. -/
def writeCsv (data : List ExtractedRecord) : Option CsvFile :=
  match data with
  | [] => none
  | _ => some { header := recordFieldnames, rows := data.map recordRow }

end Scraper

namespace Scraper

/-! ## Generic lemmas -/

theorem pollSimple_exit (dom : Nat → String) (fuel n : Nat)
    (h : dom n ≠ "--") : pollSimple dom (fuel + 1) n = (dom n, n) := by
  simp [pollSimple, h]

theorem pollPriority_first (dom : Nat → PromoterDom) :
    ∀ fuel n m v, n ≤ m → m ≤ n + fuel →
    (∀ k, n ≤ k → k < m → cycleDecision (dom k) = none) →
    cycleDecision (dom m) = some v →
    pollPriority dom fuel n = (v, m) := by
  intro fuel
  induction fuel with
  | zero =>
    intro n m v h1 h2 _ hm
    have : m = n := by omega
    subst this
    simp [pollPriority, hm]
  | succ f ih =>
    intro n m v h1 h2 hnone hm
    by_cases hnm : m = n
    · subst hnm
      simp [pollPriority, hm]
    · have hn : cycleDecision (dom n) = none :=
        hnone n (Nat.le_refl n) (by omega)
      have : pollPriority dom (f + 1) n = pollPriority dom f (n + 1) := by
        simp [pollPriority, hn]
      rw [this]
      exact ih (n + 1) m v (by omega) (by omega)
        (fun k hk hk' => hnone k (by omega) hk') hm

theorem pollPriority_no_decision (dom : Nat → PromoterDom) :
    ∀ fuel n, (∀ k, cycleDecision (dom k) = none) →
    pollPriority dom fuel n = ("--", n + fuel) := by
  intro fuel
  induction fuel with
  | zero => intro n h; simp [pollPriority, h n]
  | succ f ih =>
    intro n h
    have h1 : pollPriority dom (f + 1) n = pollPriority dom f (n + 1) := by
      simp [pollPriority, h n]
    rw [h1, ih (n + 1) h]
    congr 1
    omega

theorem pollGst_first (dom : Nat → Option String) :
    ∀ fuel n m t, n ≤ m → m ≤ n + fuel →
    (∀ k, n ≤ k → k < m → dom k = none) →
    dom m = some t → acceptNonBlank t = true →
    pollGst dom fuel n = (t, m) := by
  intro fuel
  induction fuel with
  | zero =>
    intro n m t h1 h2 _ hm ht
    have : m = n := by omega
    subst this
    simp [pollGst, hm, ht]
  | succ f ih =>
    intro n m t h1 h2 hnone hm ht
    by_cases hnm : m = n
    · subst hnm
      simp [pollGst, hm, ht]
    · have hn : dom n = none := hnone n (Nat.le_refl n) (by omega)
      have : pollGst dom (f + 1) n = pollGst dom f (n + 1) := by
        simp [pollGst, hn]
      rw [this]
      exact ih (n + 1) m t (by omega) (by omega)
        (fun k hk hk' => hnone k (by omega) hk') hm ht

theorem pollGst_all_none (dom : Nat → Option String) :
    ∀ fuel n, (∀ k, dom k = none) →
    pollGst dom fuel n = ("--", n + fuel) := by
  intro fuel
  induction fuel with
  | zero => intro n h; simp [pollGst, h n]
  | succ f ih =>
    intro n h
    have h1 : pollGst dom (f + 1) n = pollGst dom f (n + 1) := by
      simp [pollGst, h n]
    rw [h1, ih (n + 1) h]
    congr 1
    omega

theorem validateRecord_some_ok (r r' : ExtractedRecord)
    (h : validateRecord r = some r') :
    r'.promoterName ≠ "" ∧ r'.addressOfPromoter ≠ "" := by
  unfold validateRecord at h
  split at h
  · exact absurd h (by simp)
  · rename_i hcond
    push_neg at hcond
    injection h with h
    subst h
    exact hcond

theorem extendNames_some (e : Env) (n : Nat) (s s' : RunState)
    (h : extendNames e n s = some s') :
    s'.idx = s.idx ∧ s'.data = s.data := by
  unfold extendNames at h
  split at h
  · split at h
    · exact absurd h (by simp)
    · cases h; exact ⟨rfl, rfl⟩
  · cases h; exact ⟨rfl, rfl⟩

theorem processAttempt_data (o : Outcome) (s : RunState) :
    (processAttempt o s).data = s.data ∨
    ∃ r r', validateRecord r = some r' ∧
      (processAttempt o s).data = s.data ++ [r'] := by
  cases o with
  | navFailed => left; rfl
  | notFound => left; rfl
  | extracted r =>
    cases hv : validateRecord r with
    | none => left; simp [processAttempt, hv]
    | some r' => right; exact ⟨r, r', hv, by simp [processAttempt, hv]⟩

/-- Unfolding of `loopIter` at a `running` state. -/
theorem loopIter_running (e : Env) (n : Nat) (s : RunState) :
    loopIter e n (.running s) =
      if 6 ≤ s.data.length then .finished s
      else
        match extendNames e n s with
        | none => .finished s
        | some s' =>
          match s'.names[s'.idx]? with
          | none => .crashed s'
          | some _ =>
            match e.attempt n with
            | none => .crashed s'
            | some o => .running (processAttempt o s') := rfl

/-- One loop iteration either leaves the accumulated data unchanged or,
only while the loop guard still holds (fewer than 6 records), appends a
single record that passed `validateRecord`. -/
theorem loopIter_data (e : Env) (n : Nat) (L : LoopRes) :
    (loopIter e n L).state.data = L.state.data ∨
    (L.state.data.length < 6 ∧
      ∃ r r', validateRecord r = some r' ∧
        (loopIter e n L).state.data = L.state.data ++ [r']) := by
  cases L with
  | finished s => left; rfl
  | crashed s => left; rfl
  | running s =>
    rw [loopIter_running]
    by_cases h6 : 6 ≤ s.data.length
    · left; simp [h6, LoopRes.state]
    · rw [if_neg h6]
      cases hext : extendNames e n s with
      | none => left; rfl
      | some s' =>
        have hsd : s'.data = s.data := (extendNames_some e n s s' hext).2
        cases hidx : s'.names[s'.idx]? with
        | none => left; simp [hidx, LoopRes.state, hsd]
        | some name =>
          cases hatt : e.attempt n with
          | none => left; simp [hidx, hatt, LoopRes.state, hsd]
          | some o =>
            rcases processAttempt_data o s' with hp | ⟨r, r', hv, hp⟩
            · left; simp [hidx, hatt, LoopRes.state, hp, hsd]
            · right
              refine ⟨?_, r, r', hv, ?_⟩
              · show s.data.length < 6
                omega
              · simp [hidx, hatt, LoopRes.state, hp, hsd]

theorem trace_data_ok (e : Env) (L : LoopRes)
    (h : ∀ r ∈ L.state.data,
      r.promoterName ≠ "" ∧ r.addressOfPromoter ≠ "") :
    ∀ n, ∀ r ∈ (trace e L n).state.data,
      r.promoterName ≠ "" ∧ r.addressOfPromoter ≠ "" := by
  intro n
  induction n with
  | zero => exact h
  | succ m ih =>
    intro r hr
    rw [trace] at hr
    rcases loopIter_data e m (trace e L m) with heq | ⟨_, r0, r', hv, heq⟩
    · rw [heq] at hr; exact ih r hr
    · rw [heq] at hr
      rcases List.mem_append.mp hr with h1 | h2
      · exact ih r h1
      · have hr' : r = r' := by simpa using h2
        subst hr'
        exact validateRecord_some_ok r0 r hv

theorem trace_data_length (e : Env) (L : LoopRes)
    (h : L.state.data.length ≤ 6) :
    ∀ n, (trace e L n).state.data.length ≤ 6 := by
  intro n
  induction n with
  | zero => exact h
  | succ m ih =>
    rw [trace]
    rcases loopIter_data e m (trace e L m) with heq | ⟨hlt, _, _, _, heq⟩
    · rw [heq]; exact ih
    · rw [heq]; simp; omega

theorem trace_finished (e : Env) (s : RunState) :
    ∀ m, trace e (.finished s) m = .finished s := by
  intro m
  induction m with
  | zero => rfl
  | succ k ih => rw [trace, ih]; rfl

theorem pollSimple_all_placeholder (dom : Nat → String) :
    ∀ fuel n, (∀ k, n ≤ k → k < n + fuel → dom k = "--") →
    pollSimple dom fuel n = (dom (n + fuel), n + fuel) := by
  intro fuel
  induction fuel with
  | zero => intro n _; simp [pollSimple]
  | succ f ih =>
    intro n h
    have hn : dom n = "--" := h n (Nat.le_refl n) (by omega)
    have h1 : pollSimple dom (f + 1) n = pollSimple dom f (n + 1) := by
      simp [pollSimple, hn]
    have h2 := ih (n + 1) (fun k hk hk' => h k (by omega) (by omega))
    have h3 : n + 1 + f = n + (f + 1) := by omega
    rw [h1, h2, h3]

/-! ## Claim theorems -/

/-- C1 (code bug): the claim says every processing attempt advances the
cursor by exactly one, but on a navigation failure the code increments
`project_names_index` twice — once at line 160 inside the card scan and
once at the unconditional line 316 — so the cursor jumps from 0 to 2 and
the candidate at index 1 ("Beta Towers" here) is never attempted.  This
theorem evaluates one loop iteration at such a failing input. -/
theorem claim_C1_nav_failure_advances_cursor_by_two :
    loopIter ⟨fun _ => [], fun _ => some .navFailed⟩ 0
        (.running ⟨["Alpha Residency", "Beta Towers"], 0, []⟩)
      = .running ⟨["Alpha Residency", "Beta Towers"], 2, []⟩ := by
  rfl

/-- C2: every record in the accumulated sequence of any run has a
non-blank (non-empty) Promoter Name and Address; a candidate failing the
blank check is dropped (`validateRecord` returns `none`) and never
accumulated. -/
theorem claim_C2_accumulated_records_nonblank (e : Env)
    (cards : List (Option String)) (n : Nat) (r : ExtractedRecord)
    (h : r ∈ (trace e (.running (initState cards)) n).state.data) :
    r.promoterName ≠ "" ∧ r.addressOfPromoter ≠ "" :=
  trace_data_ok e _ (by simp [initState, LoopRes.state]) n r h

theorem claim_C2_accumulated_records_nonblank_witness :
    (({ projectName := "P", reraRegdNo := "R", promoterName := "Acme",
        addressOfPromoter := "Addr", gstNo := "G" } : ExtractedRecord) ∈
      (trace ⟨fun _ => [],
              fun _ => some (.extracted
                { projectName := "P", reraRegdNo := "R",
                  promoterName := "Acme", addressOfPromoter := "Addr",
                  gstNo := "G" })⟩
        (.running (initState [some "Alpha Residency"])) 1).state.data)
    ∧ (("Acme" : String) ≠ "" ∧ ("Addr" : String) ≠ "") :=
  ⟨by decide,
   claim_C2_accumulated_records_nonblank
     ⟨fun _ => [],
      fun _ => some (.extracted
        { projectName := "P", reraRegdNo := "R", promoterName := "Acme",
          addressOfPromoter := "Addr", gstNo := "G" })⟩
     [some "Alpha Residency"] 1
     { projectName := "P", reraRegdNo := "R", promoterName := "Acme",
       addressOfPromoter := "Addr", gstNo := "G" }
     (by decide)⟩

/-- C3: in every run, after any number of loop iterations (i.e. at every
point of the orchestration loop), the accumulated record count never
exceeds the target count of 6. -/
theorem claim_C3_record_count_le_target (e : Env)
    (cards : List (Option String)) (n : Nat) :
    (trace e (.running (initState cards)) n).state.data.length ≤ 6 :=
  trace_data_length e _ (by simp [initState, LoopRes.state]) n

/-- C4: the Promoter Name sources are polled each cycle in priority
order (Company Name first, then Propietory Name) and the first source
both present and non-placeholder (truthy text whose stripped form is not
`"--"`) wins; with Company Name absent and Propietory Name showing
"Acme Builders" the field resolves to "Acme Builders" in 0 sleep cycles;
with neither source present it resolves immediately to "--" in 0 sleep
cycles, without waiting for the 81-cycle ceiling. -/
theorem claim_C4_priority_source_resolution (dom : Nat → PromoterDom)
    (t : String) (m : Nat) (v : String) :
    ((dom 0).company = some t → acceptNonPlaceholder t = true →
      resolvePromoterName dom = (t, 0))
    ∧ (dom 0 = ⟨none, some "Acme Builders"⟩ →
        resolvePromoterName dom = ("Acme Builders", 0))
    ∧ (dom 0 = ⟨none, none⟩ → resolvePromoterName dom = ("--", 0))
    ∧ (m ≤ 81 → (∀ k, k < m → cycleDecision (dom k) = none) →
        cycleDecision (dom m) = some v →
        resolvePromoterName dom = (v, m)) := by
  refine ⟨?_, ?_, ?_, ?_⟩
  · intro hc ht
    have hd : cycleDecision (dom 0) = some t := by
      rcases hdom : dom 0 with ⟨c, p⟩
      rw [hdom] at hc
      simp only at hc
      subst hc
      cases p <;> simp [cycleDecision, ht]
    show pollPriority dom 81 0 = (t, 0)
    exact pollPriority_first dom 81 0 0 t (Nat.le_refl 0) (by omega)
      (fun k _ hk => absurd hk (by omega)) hd
  · intro hdom
    have hd : cycleDecision (dom 0) = some "Acme Builders" := by
      rw [hdom]; decide
    show pollPriority dom 81 0 = ("Acme Builders", 0)
    exact pollPriority_first dom 81 0 0 _ (Nat.le_refl 0) (by omega)
      (fun k _ hk => absurd hk (by omega)) hd
  · intro hdom
    have hd : cycleDecision (dom 0) = some "--" := by
      rw [hdom]; decide
    show pollPriority dom 81 0 = ("--", 0)
    exact pollPriority_first dom 81 0 0 _ (Nat.le_refl 0) (by omega)
      (fun k _ hk => absurd hk (by omega)) hd
  · intro hm hnone hv
    show pollPriority dom 81 0 = (v, m)
    exact pollPriority_first dom 81 0 m v (Nat.zero_le m) (by omega)
      (fun k _ hk => hnone k hk) hv

theorem claim_C4_priority_source_resolution_witness :
    resolvePromoterName (fun _ => ⟨none, some "Acme Builders"⟩)
        = ("Acme Builders", 0)
    ∧ resolvePromoterName (fun _ => ⟨none, none⟩) = ("--", 0)
    ∧ resolvePromoterName (fun _ => ⟨some "HATI Infra", some "Other"⟩)
        = ("HATI Infra", 0) :=
  ⟨(claim_C4_priority_source_resolution _ "x" 0 "x").2.1 rfl,
   (claim_C4_priority_source_resolution _ "x" 0 "x").2.2.1 rfl,
   (claim_C4_priority_source_resolution _ "HATI Infra" 0 "x").1 rfl
     (by decide)⟩

/-- C5: if the 120-cycle polling ceiling elapses while the displayed
text is still the placeholder "--", the resolution returns the currently
displayed value (whatever `dom 120` is, possibly still the placeholder)
as a defined result; `resolveSimpleField` is a total function, so no
exception is raised for the timeout. -/
theorem claim_C5_timeout_returns_displayed_value (dom : Nat → String)
    (h : ∀ k, k < 120 → dom k = "--") :
    resolveSimpleField dom = (dom 120, 120) := by
  show pollSimple dom 120 0 = (dom 120, 120)
  have h0 := pollSimple_all_placeholder dom 120 0
    (fun k _ hk => h k (by omega))
  simpa using h0

theorem claim_C5_timeout_returns_displayed_value_witness :
    resolveSimpleField (fun _ => "--") = ("--", 120) :=
  claim_C5_timeout_returns_displayed_value (fun _ => "--")
    (fun _ _ => rfl)

/-- C6: the dialog handler accepts every alert, confirm, prompt and
beforeunload dialog unconditionally; for any other dialog type it
accepts iff the lower-cased message contains the substring "location",
and dismisses it otherwise. -/
theorem claim_C6_dialog_policy (dtype message : String) :
    (dtype = "alert" ∨ dtype = "confirm" ∨ dtype = "prompt" ∨
        dtype = "beforeunload" →
      handle_dialog dtype message = .accept)
    ∧ (dtype ≠ "alert" → dtype ≠ "confirm" → dtype ≠ "prompt" →
        dtype ≠ "beforeunload" →
        ((handle_dialog dtype message = .accept ↔
            "location".toList <:+: (pyLower message).toList)
         ∧ (handle_dialog dtype message = .dismiss ↔
            ¬ "location".toList <:+: (pyLower message).toList))) := by
  constructor
  · intro h
    rcases h with h | h | h | h <;> (subst h; rfl)
  · intro h1 h2 h3 h4
    have hfirst : ¬(dtype = "alert" ∨ dtype = "confirm" ∨
        dtype = "prompt") := by tauto
    have hh : handle_dialog dtype message =
        if mentionsLocation message then DialogAction.accept
        else DialogAction.dismiss := by
      unfold handle_dialog
      rw [if_neg hfirst, if_neg h4]
    cases hml : mentionsLocation message with
    | true =>
      have hp : "location".toList <:+: (pyLower message).toList := by
        unfold mentionsLocation at hml
        exact of_decide_eq_true hml
      rw [hh, hml]
      exact ⟨iff_of_true rfl hp,
             iff_of_false (fun hc => DialogAction.noConfusion hc)
               (not_not_intro hp)⟩
    | false =>
      have hp : ¬ "location".toList <:+: (pyLower message).toList := by
        unfold mentionsLocation at hml
        exact of_decide_eq_false hml
      rw [hh, hml]
      exact ⟨iff_of_false (fun hc => DialogAction.noConfusion hc) hp,
             iff_of_true rfl hp⟩

theorem claim_C6_dialog_policy_witness :
    handle_dialog "confirm" "reload the page?" = .accept
    ∧ (handle_dialog "permission" "Share your Location with this site?"
          = .accept ↔
        "location".toList <:+:
          (pyLower "Share your Location with this site?").toList)
    ∧ (handle_dialog "permission" "Enable camera access?" = .dismiss ↔
        ¬ "location".toList <:+:
          (pyLower "Enable camera access?").toList) :=
  ⟨(claim_C6_dialog_policy "confirm" "reload the page?").1
     (Or.inr (Or.inl rfl)),
   ((claim_C6_dialog_policy "permission"
       "Share your Location with this site?").2
     (by decide) (by decide) (by decide) (by decide)).1,
   ((claim_C6_dialog_policy "permission" "Enable camera access?").2
     (by decide) (by decide) (by decide) (by decide)).2⟩

/-- C7: when the cursor has outrun the known candidates, fewer than 6
records are accumulated, and re-enumeration yields no entries beyond the
existing count, the loop terminates: the iteration yields `finished s`
with the accumulated data of `s` untouched, and every later iteration
leaves that terminal state unchanged (the run does not loop
indefinitely). -/
theorem claim_C7_exhaustion_terminates_early (e : Env) (n : Nat)
    (s : RunState)
    (hdata : s.data.length < 6)
    (hcur : s.names.length ≤ s.idx)
    (hnew : (enumAll (e.enumCards n)).length ≤ s.names.length) :
    loopIter e n (.running s) = .finished s
    ∧ ∀ m, trace e (loopIter e n (.running s)) m = .finished s := by
  have hfin : loopIter e n (.running s) = .finished s := by
    rw [loopIter_running, if_neg (by omega)]
    have hext : extendNames e n s = none := by
      unfold extendNames
      rw [if_pos hcur, if_pos (le_trans hnew hcur)]
    rw [hext]
  exact ⟨hfin, fun m => by rw [hfin]; exact trace_finished e s m⟩

theorem claim_C7_exhaustion_terminates_early_witness :
    ((([] : List ExtractedRecord).length < 6)
      ∧ ((["Alpha Residency"] : List String).length ≤ 1)
      ∧ ((enumAll []).length ≤ (["Alpha Residency"] : List String).length))
    ∧ loopIter ⟨fun _ => [], fun _ => none⟩ 0
        (.running ⟨["Alpha Residency"], 1, []⟩)
      = .finished ⟨["Alpha Residency"], 1, []⟩
    ∧ trace ⟨fun _ => [], fun _ => none⟩
        (loopIter ⟨fun _ => [], fun _ => none⟩ 0
          (.running ⟨["Alpha Residency"], 1, []⟩)) 5
      = .finished ⟨["Alpha Residency"], 1, []⟩ :=
  ⟨⟨by decide, by decide, by decide⟩,
   (claim_C7_exhaustion_terminates_early ⟨fun _ => [], fun _ => none⟩ 0
      ⟨["Alpha Residency"], 1, []⟩ (by decide) (by decide) (by decide)).1,
   (claim_C7_exhaustion_terminates_early ⟨fun _ => [], fun _ => none⟩ 0
      ⟨["Alpha Residency"], 1, []⟩ (by decide) (by decide) (by decide)).2 5⟩

/-- C8: at run end the CSV file is written iff at least one record was
accumulated (a zero-record run takes the "No data to write" branch
instead), and when written it has exactly the five claimed columns and
one row per accumulated record, in accumulation order. -/
theorem claim_C8_csv_output (e : Env) (cards : List (Option String))
    (n : Nat) :
    ((writeCsv (trace e (.running (initState cards)) n).state.data).isSome
      ↔ (trace e (.running (initState cards)) n).state.data ≠ [])
    ∧ (∀ f,
        writeCsv (trace e (.running (initState cards)) n).state.data
          = some f →
        f.header = ["Project Name", "Rera Regd. No", "Promoter Name",
                    "Address of the Promoter", "GST No."]
        ∧ f.rows = ((trace e (.running (initState cards)) n).state.data).map
            recordRow) := by
  generalize (trace e (.running (initState cards)) n).state.data = data
  constructor
  · cases data <;> simp [writeCsv]
  · intro f hf
    cases data with
    | nil => simp [writeCsv] at hf
    | cons a l =>
      have he : writeCsv (a :: l)
          = some { header := recordFieldnames,
                   rows := (a :: l).map recordRow } := rfl
      rw [he] at hf
      injection hf with hf
      subst hf
      exact ⟨rfl, rfl⟩

theorem claim_C8_csv_output_witness :
    ((writeCsv (trace ⟨fun _ => [],
          fun _ => some (.extracted
            { projectName := "P", reraRegdNo := "R", promoterName := "N",
              addressOfPromoter := "A", gstNo := "G" })⟩
        (.running (initState [some "Alpha Residency"])) 2).state.data).isSome
      ↔ (trace ⟨fun _ => [],
          fun _ => some (.extracted
            { projectName := "P", reraRegdNo := "R", promoterName := "N",
              addressOfPromoter := "A", gstNo := "G" })⟩
        (.running (initState [some "Alpha Residency"])) 2).state.data ≠ []) :=
  (claim_C8_csv_output _ [some "Alpha Residency"] 2).1

/-- C9: field resolution is idempotent with respect to polling — on a
detail view whose field stably shows a non-placeholder value, the
resolution returns that value with zero sleep cycles performed. -/
theorem claim_C9_stable_value_resolves_immediately (dom : Nat → String)
    (v : String) (hv : v ≠ "--") (hstable : ∀ k, dom k = v) :
    resolveSimpleField dom = (v, 0) := by
  show pollSimple dom 120 0 = (v, 0)
  have h0 : dom 0 ≠ "--" := by rw [hstable 0]; exact hv
  rw [show (120 : Nat) = 119 + 1 from rfl,
      pollSimple_exit dom 119 0 h0, hstable 0]

theorem claim_C9_stable_value_resolves_immediately_witness :
    resolveSimpleField (fun _ => "ABC Towers") = ("ABC Towers", 0) :=
  claim_C9_stable_value_resolves_immediately _ "ABC Towers" (by decide)
    (fun _ => rfl)

/-- C10: the GST No. loop accepts any displayed text that is non-empty
after stripping — including the placeholder "--" — on the first cycle
its element is present (this is `acceptNonBlank`, unlike the
`acceptNonPlaceholder` test of the Promoter Name loop, which keeps
polling to the full 81-cycle ceiling on a constant "--"); and when the
GST element is absent from the DOM at every cycle it polls for the full
ceiling (81 sleep cycles) before defaulting to "--", rather than
resolving immediately. -/
theorem claim_C10_gst_accepts_nonblank (dom : Nat → Option String)
    (t : String) (m : Nat) (pdom : Nat → PromoterDom) :
    acceptNonBlank "--" = true
    ∧ (m ≤ 81 → (∀ k, k < m → dom k = none) → dom m = some t →
        acceptNonBlank t = true → resolveGst dom = (t, m))
    ∧ ((∀ k, dom k = none) → resolveGst dom = ("--", 81))
    ∧ ((∀ k, pdom k = ⟨some "--", none⟩) →
        resolvePromoterName pdom = ("--", 81)) := by
  refine ⟨by decide, ?_, ?_, ?_⟩
  · intro hm hnone hdm ht
    show pollGst dom 81 0 = (t, m)
    exact pollGst_first dom 81 0 m t (Nat.zero_le m) (by omega)
      (fun k _ hk => hnone k hk) hdm ht
  · intro h
    show pollGst dom 81 0 = ("--", 81)
    simpa using pollGst_all_none dom 81 0 h
  · intro h
    show pollPriority pdom 81 0 = ("--", 81)
    have hd : ∀ k, cycleDecision (pdom k) = none := by
      intro k; rw [h k]; decide
    simpa using pollPriority_no_decision pdom 81 0 hd

theorem claim_C10_gst_accepts_nonblank_witness :
    acceptNonBlank "--" = true
    ∧ resolveGst (fun _ => some "--") = ("--", 0)
    ∧ resolveGst (fun _ => none) = ("--", 81)
    ∧ resolvePromoterName (fun _ => ⟨some "--", none⟩) = ("--", 81) :=
  ⟨(claim_C10_gst_accepts_nonblank (fun _ => none) "x" 0
      (fun _ => ⟨some "--", none⟩)).1,
   (claim_C10_gst_accepts_nonblank (fun _ => some "--") "--" 0
      (fun _ => ⟨some "--", none⟩)).2.1 (by omega)
     (fun k hk => absurd hk (by omega)) rfl (by decide),
   (claim_C10_gst_accepts_nonblank (fun _ => none) "x" 0
      (fun _ => ⟨some "--", none⟩)).2.2.1 (fun _ => rfl),
   (claim_C10_gst_accepts_nonblank (fun _ => none) "x" 0
      (fun _ => ⟨some "--", none⟩)).2.2.2 (fun _ => rfl)⟩

end Scraper

/-! Sanity checks (not claim theorems). -/

theorem scraper_dialog_confirm_accepted :
    Scraper.handle_dialog "confirm" "anything" = .accept := by rfl

theorem scraper_simple_field_immediate :
    Scraper.resolveSimpleField (fun _ => "HATI Greens") = ("HATI Greens", 0) := by
  rfl
